import Mathlib

/-!
Shallow embedding of the mmcli batch orchestration core
(src/app/utils/media_format.py, src/app/tools/media_converter.py,
src/app/tools/media_downloader.py, src/app/tools/youtube_downloader.py),
with theorems settling the specification's claims about it.

External collaborators (the ffmpeg encoder, the remote media platform,
the filesystem, the wall clock and the completion schedule of concurrent
tasks) are modelled as explicit oracle parameters; everything else is
translated from the Python source.
-/

namespace Mmcli

/-! ## Format registry (src/app/utils/media_format.py) -/

structure FormatEntry where
  «alias» : String
  format : String
  desc : String
deriving Repr, DecidableEq

def video_formats : List FormatEntry := [
  ⟨"mp4", "mp4", "MPEG-4 Part 14"⟩,
  ⟨"mkv", "matroska", "Matroska Multimedia Container"⟩,
  ⟨"avi", "avi", "Audio Video Interleaved"⟩,
  ⟨"mov", "mov", "QuickTime Movie"⟩,
  ⟨"flv", "flv", "Flash Video"⟩,
  ⟨"webm", "webm", "WebM Video"⟩,
  ⟨"mpeg", "mpeg", "MPEG Program Stream"⟩,
  ⟨"mpg", "mpeg", "MPEG Program Stream"⟩,
  ⟨"ts", "mpegts", "MPEG Transport Stream"⟩,
  ⟨"m2ts", "mpegts", "MPEG-2 Transport Stream"⟩,
  ⟨"ogv", "ogg", "Ogg Video"⟩,
  ⟨"3gp", "3gp", "3GPP Multimedia Container"⟩,
  ⟨"3g2", "3g2", "3GPP2 Multimedia Container"⟩,
  ⟨"vob", "vob", "DVD Video Object"⟩,
  ⟨"f4v", "f4v", "Flash Video F4V"⟩,
  ⟨"wmv", "asf", "Windows Media Video"⟩,
  ⟨"rm", "rm", "RealMedia"⟩,
  ⟨"rmvb", "rm", "RealMedia Variable Bitrate"⟩]

def audio_formats : List FormatEntry := [
  ⟨"mp3", "mp3", "MPEG Audio Layer III"⟩,
  ⟨"wav", "wav", "Waveform Audio File Format"⟩,
  ⟨"flac", "flac", "Free Lossless Audio Codec"⟩,
  ⟨"aac", "aac", "Advanced Audio Coding"⟩,
  ⟨"m4a", "ipod", "MPEG-4 Audio"⟩,
  ⟨"ogg", "ogg", "Ogg Vorbis/Opus"⟩,
  ⟨"oga", "ogg", "Ogg Audio"⟩,
  ⟨"opus", "ogg", "Opus in Ogg"⟩,
  ⟨"wma", "asf", "Windows Media Audio"⟩,
  ⟨"alac", "ipod", "Apple Lossless Audio Codec"⟩,
  ⟨"amr", "amr", "Adaptive Multi-Rate Audio"⟩,
  ⟨"ac3", "ac3", "Dolby Digital AC-3"⟩,
  ⟨"dts", "dts", "Digital Theater Systems"⟩,
  ⟨"eac3", "eac3", "Enhanced AC-3"⟩]

def image_formats : List FormatEntry := [
  ⟨"jpg", "mjpeg", "JPEG Image"⟩,
  ⟨"jpeg", "mjpeg", "JPEG Image"⟩,
  ⟨"png", "png", "Portable Network Graphics"⟩,
  ⟨"webp", "webp", "WebP Image"⟩,
  ⟨"gif", "gif", "Graphics Interchange Format"⟩,
  ⟨"bmp", "bmp", "Bitmap Image"⟩,
  ⟨"tif", "tiff", "Tagged Image File Format"⟩,
  ⟨"tiff", "tiff", "Tagged Image File Format"⟩,
  ⟨"ico", "ico", "Windows Icon"⟩,
  ⟨"svg", "svg", "Scalable Vector Graphics"⟩,
  ⟨"heif", "heif", "High Efficiency Image Format"⟩,
  ⟨"heic", "hevc", "High Efficiency Image Coding"⟩,
  ⟨"jp2", "jpeg2000", "JPEG 2000"⟩,
  ⟨"j2k", "jpeg2000", "JPEG 2000"⟩,
  ⟨"jxl", "jpegxl", "JPEG XL"⟩]

def subtitle_formats : List FormatEntry := [
  ⟨"srt", "srt", "SubRip Subtitle"⟩,
  ⟨"ass", "ass", "Advanced SubStation Alpha"⟩,
  ⟨"ssa", "ass", "SubStation Alpha"⟩,
  ⟨"vtt", "webvtt", "WebVTT Subtitle"⟩,
  ⟨"sub", "microdvd", "MicroDVD Subtitle"⟩,
  ⟨"idx", "microdvd", "MicroDVD Index"⟩,
  ⟨"mks", "matroska", "Matroska Subtitles"⟩]

def all_formats : List FormatEntry :=
  video_formats ++ audio_formats ++ image_formats ++ subtitle_formats

/-- `get_format(format, formats)` from media_format.py: keeps every entry whose
`alias` or `format` field equals the query exactly. -/
def get_format (query : String) (formats : List FormatEntry := all_formats) :
    List FormatEntry :=
  formats.filter (fun f => f.«alias» == query || f.format == query)

/-! ## Path and string helpers shared by the tools

`py_in sub s` models Python's `sub in s` substring test; `py_str_or a b`
models `a or b` where `a` is an optional string (None and "" are falsy). -/

def charsHaveSub (needle : List Char) : List Char → Bool
  | [] => needle.isEmpty
  | c :: rest => List.isPrefixOf needle (c :: rest) || charsHaveSub needle rest

def py_in (sub s : String) : Bool := charsHaveSub sub.toList s.toList

def py_str_or (a : Option String) (b : String) : String :=
  match a with
  | some s => if s = "" then b else s
  | none => b

/-- Characters after the last occurrence of `sep`, when one is present. -/
def lastSepSuffix (sep : Char) : List Char → Option (List Char)
  | [] => none
  | c :: rest =>
    match lastSepSuffix sep rest with
    | some s => some s
    | none => if c = sep then some rest else none

/-- Characters after the last '.' of the list, when a dot is present. -/
def lastDotSuffix (cs : List Char) : Option (List Char) := lastSepSuffix '.' cs

/-- Final path component (text after the last '/'), as in `os.path` /
`pathlib` on posix. -/
def basenamePart (s : String) : String :=
  match lastSepSuffix '/' s.toList with
  | some suffix => String.mk suffix
  | none => s

/-- ASCII lowercasing of a string, as Python's `str.lower` on these
inputs. -/
def strLower (s : String) : String := String.mk (s.toList.map Char.toLower)

/-- `extract_file_extension` from media_downloader.py:
`os.path.splitext(filepath)[1][1:].lower()`. `splitext` takes the extension
at the last dot of the basename provided some earlier character of the
basename is not itself a dot. -/
def extract_file_extension (filepath : String) : String :=
  let cs := (basenamePart filepath).toList
  match lastDotSuffix cs with
  | none => ""
  | some suffix =>
    let pre := cs.take (cs.length - suffix.length - 1)
    if pre.any (fun c => c ≠ '.') then String.mk (suffix.map Char.toLower) else ""

/-- `pathlib.Path.stem`: basename without its suffix; a name whose only dot
is leading or trailing has no suffix. -/
def pathStem (filepath : String) : String :=
  let name := basenamePart filepath
  let cs := name.toList
  match lastDotSuffix cs with
  | none => name
  | some suffix =>
    if 0 < cs.length - suffix.length - 1 ∧ suffix ≠ [] then
      String.mk (cs.take (cs.length - suffix.length - 1))
    else name

/-! ## Converter (src/app/tools/media_converter.py)

The ffmpeg encoder is opaque: each item's interaction with it is an
`ItemBehavior` oracle value. `.ok` means the `ffmpeg...run` call returns
normally; `.encoderFail msg` means it raises (caught inside `_convert`,
which prints and returns False); `.raised msg` means an exception escapes
`convert_single_file_functional` itself and is caught by the orchestrator
(`convert_with_feedback` / the gather exception sweep). `datetime.now()`
is a timestamp oracle. -/

structure ConvOutcome where
  input_file : String
  output_file : Option String
  success : Bool
  format : String
  error : Option String
deriving Repr, DecidableEq

inductive ItemBehavior where
  | ok
  | encoderFail (msg : String)
  | raised (msg : String)
deriving Repr, DecidableEq

/-- `find_ffmpeg_format`: first registry entry whose alias equals the
requested format, if any. -/
def find_ffmpeg_format (output_format : String) : Option String :=
  match all_formats.filter (fun f => f.«alias» == output_format) with
  | [] => none
  | f :: _ => some f.format

/-- `generate_output_filename(input_file, output_format)` with the
`datetime.now().strftime("%Y%m%d_%H%M%S_%f")` value passed explicitly. -/
def generate_output_filename (input_file output_format timestamp : String) : String :=
  pathStem input_file ++ "_" ++ timestamp ++ "." ++ output_format

def create_output_path (input_file output_format output_dir timestamp : String) : String :=
  output_dir ++ "/" ++ generate_output_filename input_file output_format timestamp

/-- `ensure_output_directory`: explicit directory if truthy, else
`cwd/convert`. -/
def ensure_output_directory (output_dir : Option String) (cwd : String) : String :=
  match output_dir with
  | some d => if d = "" then cwd ++ "/convert" else d
  | none => cwd ++ "/convert"

/-- `execute_ffmpeg_conversion`: False for an unknown format; otherwise the
encoder call's fate (an exception inside `_convert` is caught there and
becomes False). -/
def execute_ffmpeg_conversion (ffmpeg_format : Option String) (encoderOk : Bool) : Bool :=
  match ffmpeg_format with
  | none => false
  | some _ => encoderOk

/-- `convert_single_file_functional`; no `error` key exists in the returned
record, so the embedding's `error` field is `none` on both branches. -/
def convert_single_file_functional (input_file output_format output_dir timestamp : String)
    (encoderOk : Bool) : ConvOutcome :=
  let success := execute_ffmpeg_conversion (find_ffmpeg_format output_format) encoderOk
  { input_file := input_file
    output_file := if success then
        some (create_output_path input_file output_format output_dir timestamp)
      else none
    success := success
    format := output_format
    error := none }

/-- `convert_with_feedback` inside `process_conversion_batch`: a normal
(possibly failed) single-file result passes through; an escaped exception is
caught and recorded with `error = str(e)`. -/
def convert_with_feedback (input_file output_format output_dir timestamp : String)
    (b : ItemBehavior) : ConvOutcome :=
  match b with
  | .ok => convert_single_file_functional input_file output_format output_dir timestamp true
  | .encoderFail _ => convert_single_file_functional input_file output_format output_dir timestamp false
  | .raised msg =>
    { input_file := input_file, output_file := none, success := false,
      format := output_format, error := some msg }

def run_item (output_format output_dir : String) (beh : Nat → ItemBehavior)
    (ts : Nat → String) (i : Nat) (f : String) : ConvOutcome :=
  convert_with_feedback f output_format output_dir (ts i) (beh i)

/-- `process_conversion_batch`: the sequential branch appends results in
input order; the concurrent branch gathers the semaphore-bounded tasks with
`asyncio.gather`, whose result list is positional (task order), and sweeps
exception values into failed records — under either branch the i-th result
is item i's record, whatever the completion schedule. -/
def process_conversion_batch (inputs : List String) (output_format output_dir : String)
    (beh : Nat → ItemBehavior) (ts : Nat → String) (max_concurrent : Nat) : List ConvOutcome :=
  if inputs.length = 1 ∨ max_concurrent ≤ 1 then
    inputs.enum.map (fun p => run_item output_format output_dir beh ts p.1 p.2)
  else
    inputs.enum.map (fun p => run_item output_format output_dir beh ts p.1 p.2)

structure ConvStats where
  total : Nat
  success : Nat
  failed : Nat
deriving Repr, DecidableEq

def calculate_conversion_stats (results : List ConvOutcome) : ConvStats :=
  results.foldl
    (fun acc r =>
      { total := acc.total + 1
        success := acc.success + (if r.success then 1 else 0)
        failed := acc.failed + (if r.success then 0 else 1) })
    ⟨0, 0, 0⟩

/-- The `failed_files` listing printed by `print_conversion_results`
(printed only when `stats["failed"] > 0`; empty otherwise). -/
def failed_conversion_listing (results : List ConvOutcome) : List String :=
  if 0 < (calculate_conversion_stats results).failed then
    (results.filter (fun r => !r.success)).map (fun r => r.input_file)
  else []

def convert_files_functional (input_files : List String) (output_format : String)
    (output_dir : Option String) (cwd : String) (beh : Nat → ItemBehavior)
    (ts : Nat → String) (max_workers : Nat) : List ConvOutcome :=
  process_conversion_batch input_files output_format
    (ensure_output_directory output_dir cwd) beh ts max_workers

/-! ## Input resolution and the convert CLI boundary -/

/-- Filesystem oracle: `glob(p)`, `glob(p, recursive=True)` and
`Path(p).exists()`. -/
structure Fs where
  glob : String → List String
  globRec : String → List String
  pathExists : String → Bool

/-- `resolve_file_paths`: glob patterns fall back to a recursive `**/`
search; literal paths resolve to themselves when they exist;
`FileNotFoundError` when nothing is found. -/
def resolve_file_paths (fs : Fs) (input_pattern : String) : Except String (List String) :=
  let files :=
    if py_in "*" input_pattern then
      match fs.glob input_pattern with
      | [] => fs.globRec ("**/" ++ input_pattern)
      | p :: ps => p :: ps
    else if fs.pathExists input_pattern then [input_pattern] else []
  if files.isEmpty then .error ("No file(s) found matching: " ++ input_pattern)
  else .ok files

/-- Result of a CLI entry point: either a value, or `sys.exit(code)`. -/
inductive CliResult (α : Type) where
  | ok (val : α)
  | exited (code : Nat)
deriving Repr, DecidableEq

/-- The `convert(args)` entry point: argument validation and input
resolution run inside a try/except whose handler calls `sys.exit(1)`;
only afterwards does the batch execute. -/
def convert_cli (fs : Fs) (path toFmt output_dir : Option String) (cwd : String)
    (beh : Nat → ItemBehavior) (ts : Nat → String) (max_workers : Nat) :
    CliResult (List ConvOutcome) :=
  if py_str_or path "" = "" ∨ py_str_or toFmt "" = "" then .exited 1
  else
    match resolve_file_paths fs (py_str_or path "") with
    | .error _ => .exited 1
    | .ok files =>
      .ok (convert_files_functional files (py_str_or toFmt "") output_dir cwd beh ts max_workers)

/-! ## Downloader (src/app/tools/media_downloader.py and
src/app/tools/youtube_downloader.py)

The remote platform is opaque: a download's `stream.download(...)` return
value (a path, or None) is an oracle argument. Config-file defaults are the
shipped defaults of src/app/utils/config.py. -/

def audio_format_default : String := "m4a"

def video_format_default : String := "mp4"

def max_workers_default : Nat := 3

/-- `get_format_or_default`: config default when no format was requested,
the first registry match's encoder name when one was, `ValueError` when the
requested alias is unknown. -/
def get_format_or_default (format_arg : Option String) (format_map : List FormatEntry)
    (default : String) : Except String String :=
  match format_arg with
  | none => .ok default
  | some a =>
    match get_format a format_map with
    | [] => .error ("Unsupported format: " ++ a)
    | f :: _ => .ok f.format

/-- `get_audio_format_or_default`: `None` (meaning: convert nothing) when no
format argument was given; the audio-table resolution otherwise. -/
def get_audio_format_or_default (format_arg : Option String) :
    Except String (Option String) :=
  match format_arg with
  | none => .ok none
  | some a => (get_format_or_default (some a) audio_formats audio_format_default).map some

def get_video_format_or_default (format_arg : Option String) : Except String String :=
  get_format_or_default format_arg video_formats video_format_default

/-- `should_convert_format`: no conversion for a falsy target; otherwise a
case-insensitive extension comparison. -/
def should_convert_format (current_ext target_format : String) : Bool :=
  if target_format = "" then false
  else strLower current_ext != strLower target_format

/-- Observable effect of `convert_if_needed`: the returned path (`final`),
whether `os.remove(downloaded_file)` ran (`removed_original`), and whether
`media_converter.convert` was invoked at all (`convert_called`).
`convertRun` is the result list of that `media_converter.convert` call. -/
structure CifOut where
  final : Option String
  removed_original : Bool
  convert_called : Bool
deriving Repr, DecidableEq

def convert_if_needed (downloaded_file target_format : Option String)
    (convertRun : List ConvOutcome) : CifOut :=
  match downloaded_file, target_format with
  | none, _ => ⟨none, false, false⟩
  | some f, none => ⟨some f, false, false⟩
  | some f, some t =>
    if f = "" then ⟨some f, false, false⟩
    else if should_convert_format (extract_file_extension f) t then
      match convertRun with
      | r :: _ => if r.success then ⟨r.output_file, true, true⟩ else ⟨some f, false, true⟩
      | [] => ⟨some f, false, true⟩
    else ⟨some f, false, false⟩

/-- One raw result from youtube_downloader's single-video/audio download:
`success`, `file_path`, and the metadata fields the orchestration reads
(`title`, and `error` when the worker recorded one). -/
structure RawDlResult where
  success : Bool
  file_path : Option String
  title : String
  error : Option String
deriving Repr, DecidableEq

/-- `youtube_downloader.download_single_video` (the audio variant is
identical): `fetched` is the opaque `stream.download(output_path)` return
value and success is defined as its non-None-ness. -/
def download_single_video (fetched : Option String) (title : String) : RawDlResult :=
  { success := fetched.isSome, file_path := fetched, title := title, error := none }

structure DlConfig where
  output_path : String
  output_format : Option String
deriving Repr, DecidableEq

/-- The processed outcome record built by `process_single_download_result`
and `process_playlist_results`. A missing `file_path`/`error` key is
`none`. -/
structure DlOutcome where
  success : Bool
  title : String
  path : String
  format : String
  converted : Bool
  file_path : Option String
  error : Option String
deriving Repr, DecidableEq

def process_single_download_result (result : RawDlResult) (config : DlConfig)
    (convertRun : List ConvOutcome) : DlOutcome :=
  if !result.success then
    { success := false, title := result.title, path := config.output_path,
      format := py_str_or config.output_format "original", converted := false,
      file_path := none, error := some (result.error.getD "Download failed") }
  else
    let cif := convert_if_needed result.file_path config.output_format convertRun
    { success := true, title := result.title, path := config.output_path,
      format := py_str_or config.output_format (extract_file_extension (cif.final.getD "")),
      converted := cif.final != result.file_path,
      file_path := cif.final, error := none }

/-- `collect_downloaded_files`: paths of the successful downloads whose
`file_path` is truthy. -/
def collect_downloaded_files (results : List RawDlResult) : List String :=
  results.filterMap (fun r =>
    match r.file_path with
    | some f => if r.success && f != "" then some f else none
    | none => none)

structure BatchConvertOut where
  conversion_results : List ConvOutcome
  removed : List String
deriving Repr, DecidableEq

/-- `batch_convert_playlist_files`: filter the files whose extension
mismatches the target, convert them through `convert_files_functional`
(default output dir, config `max_workers`), then `os.remove` exactly the
originals whose conversion result is successful. -/
def batch_convert_playlist_files (downloaded_files : List String) (target_format : String)
    (cwd : String) (beh : Nat → ItemBehavior) (ts : Nat → String) : BatchConvertOut :=
  if downloaded_files.isEmpty then ⟨[], []⟩
  else
    let files_to_convert := downloaded_files.filter
      (fun f => should_convert_format (extract_file_extension f) target_format)
    if files_to_convert.isEmpty then ⟨[], []⟩
    else
      let conversion_results := convert_files_functional files_to_convert target_format
        none cwd beh ts max_workers_default
      { conversion_results := conversion_results
        removed := (files_to_convert.zip conversion_results).filterMap
          (fun p => if p.2.success then some p.1 else none) }

/-- The dict `{result["input_file"]: result}` built in
`process_playlist_results`, looked up by file path (later entries win). -/
def lookup_conversion (conversion_results : List ConvOutcome) (f : String) :
    Option ConvOutcome :=
  conversion_results.reverse.find? (fun c => c.input_file == f)

/-- The per-video mapping step of `process_playlist_results`. -/
def process_one_playlist_result (config : DlConfig) (conversion_results : List ConvOutcome)
    (r : RawDlResult) : DlOutcome :=
  if !r.success then
    { success := false, title := r.title, path := config.output_path,
      format := py_str_or config.output_format "original", converted := false,
      file_path := none, error := some (r.error.getD "Download failed") }
  else
    let conv := lookup_conversion conversion_results (r.file_path.getD "")
    let was_converted : Bool := match conv with
      | some c => c.success
      | none => false
    let final_file_path : Option String :=
      match conv with
      | some c => if c.success then c.output_file else r.file_path
      | none => r.file_path
    { success := true, title := r.title, path := config.output_path,
      format := py_str_or config.output_format
        (extract_file_extension (final_file_path.getD "")),
      converted := was_converted, file_path := final_file_path, error := none }

/-- `process_playlist_results`: deferred batch conversion of the mismatched
downloads, then the per-video mapping against the conversion dict. Returns
the processed outcomes together with the files `os.remove`d by the batch
conversion. -/
def process_playlist_results (results : List RawDlResult) (config : DlConfig)
    (cwd : String) (beh : Nat → ItemBehavior) (ts : Nat → String) :
    List DlOutcome × List String :=
  let downloaded_files := collect_downloaded_files results
  match config.output_format with
  | none => (results.map (process_one_playlist_result config []), [])
  | some t =>
    if downloaded_files.any (fun f => should_convert_format (extract_file_extension f) t) then
      let bc := batch_convert_playlist_files downloaded_files t cwd beh ts
      (results.map (process_one_playlist_result config bc.conversion_results), bc.removed)
    else
      (results.map (process_one_playlist_result config []), [])

/-- `calculate_success_stats` from media_downloader.py: the same fold as
`calculate_conversion_stats`, over download outcomes. -/
def calculate_success_stats (results : List DlOutcome) : ConvStats :=
  results.foldl
    (fun acc r =>
      { total := acc.total + 1
        success := acc.success + (if r.success then 1 else 0)
        failed := acc.failed + (if r.success then 0 else 1) })
    ⟨0, 0, 0⟩

/-! ## URL validation and the download CLI boundary -/

def is_youtube_url (url : String) : Bool :=
  py_in "youtube.com" url || py_in "youtu.be" url

def is_playlist_url (url : String) : Bool := py_in "list=" url

structure UrlValidation where
  is_valid : Bool
  is_playlist : Bool
deriving Repr, DecidableEq

def validate_youtube_url (url : String) : UrlValidation :=
  { is_valid := is_youtube_url url, is_playlist := is_playlist_url url }

/-- The `download(args)` entry point around `route_video_download` /
`route_audio_download`: an unsupported URL raises `ValueError` inside the
route, the `download` handler catches it and exits with code 1; otherwise
the routed download (`routed`, an oracle here) is returned. -/
def download_cli (url : String) (routed : List DlOutcome) : CliResult (List DlOutcome) :=
  if (validate_youtube_url url).is_valid then .ok routed else .exited 1

/-! ## Parallel playlist downloads (youtube_downloader.py)

`download_playlist_videos_parallel` submits one worker per playlist entry to
a thread pool, collects worker results in **completion order** via
`as_completed`, then runs `results.sort(key=lambda r:
task_index_map.get(r["metadata"].get("title", ""), 999))` where
`task_index_map` maps each task's `video_url` to its index. `worker i` is
the (exception-free, already normalized) result of
`download_single_video_worker` for entry i; `completion_order` is the order
in which the futures complete. Python's `list.sort` is stable; the model
uses a stable insertion sort. -/

structure PlaylistVideo where
  watch_url : String
  title : String
deriving Repr, DecidableEq

def stable_insert {α : Type} (key : α → Nat) (x : α) : List α → List α
  | [] => [x]
  | y :: ys => if key x ≤ key y then x :: y :: ys else y :: stable_insert key x ys

def stable_sort_by_key {α : Type} (key : α → Nat) : List α → List α
  | [] => []
  | x :: xs => stable_insert key x (stable_sort_by_key key xs)

def task_index_map_get (playlist : List PlaylistVideo) (s : String) : Nat :=
  match playlist.enum.find? (fun p => p.2.watch_url == s) with
  | some p => p.1
  | none => 999

def download_playlist_videos_parallel (playlist : List PlaylistVideo)
    (worker : Nat → RawDlResult) (completion_order : List Nat) : List RawDlResult :=
  let collected := completion_order.map worker
  stable_sort_by_key (fun r => task_index_map_get playlist r.title) collected

/-! ## Theorems -/

/-- C6 counterexample: the audio entry with alias "ogg" is in the registry,
but looking its alias up does not return that entry itself: the query also
matches the `encoder_format` field of three other entries, and the first
match is the video entry "ogv". -/
theorem C6_lookup_alias_counterexample :
    (⟨"ogg", "ogg", "Ogg Vorbis/Opus"⟩ : FormatEntry) ∈ all_formats ∧
    get_format "ogg" =
      [⟨"ogv", "ogg", "Ogg Video"⟩, ⟨"ogg", "ogg", "Ogg Vorbis/Opus"⟩,
       ⟨"oga", "ogg", "Ogg Audio"⟩, ⟨"opus", "ogg", "Opus in Ogg"⟩] ∧
    get_format "ogg" ≠ [(⟨"ogg", "ogg", "Ogg Vorbis/Opus"⟩ : FormatEntry)] ∧
    (get_format "ogg").head? ≠ some ⟨"ogg", "ogg", "Ogg Vorbis/Opus"⟩ := by
  refine ⟨by decide, by decide, by decide, by decide⟩

/-- C6 (amended): for every registry entry e, looking up e's alias returns a
result set that includes e (not necessarily e alone, since the query is also
matched against encoder-format fields), looking up e's encoder format name
returns a result set that includes e, and membership in a lookup result is
exactly case-sensitive string equality of the query with the alias or
encoder-format field. -/
theorem C6_registry_round_trip :
    (∀ e ∈ all_formats, e ∈ get_format e.«alias» ∧ e ∈ get_format e.format) ∧
    (∀ (q : String) (formats : List FormatEntry) (f : FormatEntry),
      f ∈ get_format q formats ↔ f ∈ formats ∧ (f.«alias» = q ∨ f.format = q)) := by
  constructor
  · decide
  · intro q formats f
    simp [get_format, List.mem_filter]

/-- Witness for C6_registry_round_trip at the "mkv" entry. -/
theorem C6_registry_round_trip_witness :
    (⟨"mkv", "matroska", "Matroska Multimedia Container"⟩ : FormatEntry) ∈
      get_format "mkv" ∧
    (⟨"mkv", "matroska", "Matroska Multimedia Container"⟩ : FormatEntry) ∈
      get_format "matroska" :=
  C6_registry_round_trip.1 ⟨"mkv", "matroska", "Matroska Multimedia Container"⟩ (by decide)

/-- C5: every outcome record satisfies the output-path invariant: a failed
conversion outcome has no output path and a successful one has one; a raw
download result's success flag is exactly the presence of a downloaded file;
and a processed single-download outcome has a file path exactly when it
succeeds (given that its inputs satisfy the same invariant). -/
theorem C5_outcome_output_path_invariant :
    (∀ file fmt dir ts ok,
      ((convert_single_file_functional file fmt dir ts ok).success = false →
        (convert_single_file_functional file fmt dir ts ok).output_file = none) ∧
      ((convert_single_file_functional file fmt dir ts ok).success = true →
        (convert_single_file_functional file fmt dir ts ok).output_file.isSome = true)) ∧
    (∀ fetched title,
      ((download_single_video fetched title).success = false →
        (download_single_video fetched title).file_path = none) ∧
      ((download_single_video fetched title).success = true →
        (download_single_video fetched title).file_path.isSome = true)) ∧
    (∀ result config run,
      (result.success = true → result.file_path.isSome = true) →
      (∀ r ∈ run, r.success = true → r.output_file.isSome = true) →
      ((process_single_download_result result config run).success = false →
        (process_single_download_result result config run).file_path = none) ∧
      ((process_single_download_result result config run).success = true →
        (process_single_download_result result config run).file_path.isSome = true)) := by
  refine ⟨?_, ?_, ?_⟩
  · intro file fmt dir ts ok
    cases h : execute_ffmpeg_conversion (find_ffmpeg_format fmt) ok <;>
      simp [convert_single_file_functional, h]
  · intro fetched title
    cases fetched <;> simp [download_single_video]
  · intro result config run hres hrun
    cases hs : result.success with
    | false =>
      simp [process_single_download_result, hs]
    | true =>
      obtain ⟨f, hf⟩ := Option.isSome_iff_exists.mp (hres hs)
      simp only [process_single_download_result, hs, Bool.not_true, Bool.false_eq_true,
        if_false]
      refine ⟨fun h => absurd h (by simp), fun _ => ?_⟩
      simp only [convert_if_needed, hf]
      cases hfmt : config.output_format with
      | none => simp
      | some t =>
        by_cases hempty : f = ""
        · simp [hempty]
        · simp only [if_neg hempty]
          by_cases hconv : should_convert_format (extract_file_extension f) t = true
          · simp only [hconv, if_true]
            cases run with
            | nil => simp
            | cons r rest =>
              cases hr : r.success with
              | false => simp [hr]
              | true =>
                have := hrun r (List.mem_cons_self r rest) hr
                simp [hr, this]
          · simp [hconv]

/-- Witness for C5_outcome_output_path_invariant: a failed conversion has no
output path; a successful download processed with a successful conversion
run has a file path. -/
theorem C5_outcome_output_path_invariant_witness :
    (convert_single_file_functional "a.mp4" "mp3" "out" "T" false).output_file = none ∧
    (process_single_download_result ⟨true, some "f.webm", "t", none⟩ ⟨"out", some "mp3"⟩
      [⟨"f.webm", some "o.mp3", true, "mp3", none⟩]).file_path.isSome = true :=
  ⟨(C5_outcome_output_path_invariant.1 "a.mp4" "mp3" "out" "T" false).1 (by decide),
   (C5_outcome_output_path_invariant.2.2 ⟨true, some "f.webm", "t", none⟩
      ⟨"out", some "mp3"⟩ [⟨"f.webm", some "o.mp3", true, "mp3", none⟩]
      (by decide) (by decide)).2 (by decide)⟩

/-- The total/success/failed fold used by both summary functions, with a
general accumulator. -/
theorem stats_foldl_characterization {α : Type} (succ : α → Bool) (l : List α)
    (acc : ConvStats) :
    l.foldl (fun a r =>
      { total := a.total + 1
        success := a.success + (if succ r then 1 else 0)
        failed := a.failed + (if succ r then 0 else 1) }) acc =
    { total := acc.total + l.length
      success := acc.success + (l.filter succ).length
      failed := acc.failed + (l.filter (fun r => !succ r)).length } := by
  induction l generalizing acc with
  | nil => simp
  | cons x xs ih =>
    simp only [List.foldl_cons, ih, List.length_cons, List.filter_cons]
    cases h : succ x <;> simp [h, ConvStats.mk.injEq] <;> omega

/-- C3: with S the number of successful and F the number of failed outcomes,
both summary folds return exactly {total := S + F, success := S,
failed := F}, and the rendered failure listing is exactly the inputs of the
failed outcomes. -/
theorem C3_summary_correctness (results : List ConvOutcome) (dlResults : List DlOutcome) :
    calculate_conversion_stats results =
      { total := (results.filter (fun r => r.success)).length +
          (results.filter (fun r => !r.success)).length
        success := (results.filter (fun r => r.success)).length
        failed := (results.filter (fun r => !r.success)).length } ∧
    failed_conversion_listing results =
      (results.filter (fun r => !r.success)).map (fun r => r.input_file) ∧
    calculate_success_stats dlResults =
      { total := (dlResults.filter (fun r => r.success)).length +
          (dlResults.filter (fun r => !r.success)).length
        success := (dlResults.filter (fun r => r.success)).length
        failed := (dlResults.filter (fun r => !r.success)).length } := by
  have hc : calculate_conversion_stats results =
      { total := results.length
        success := (results.filter (fun r => r.success)).length
        failed := (results.filter (fun r => !r.success)).length } := by
    have h := stats_foldl_characterization (fun r : ConvOutcome => r.success) results ⟨0, 0, 0⟩
    simpa [calculate_conversion_stats] using h
  have hlen : results.length = (results.filter (fun r => r.success)).length +
      (results.filter (fun r => !r.success)).length :=
    List.length_eq_length_filter_add (fun r => r.success)
  refine ⟨by rw [hc, hlen], ?_, ?_⟩
  · by_cases hF : 0 < (results.filter (fun r => !r.success)).length
    · simp [failed_conversion_listing, hc, hF]
    · have h0 : results.filter (fun r => !r.success) = [] := by
        cases hnil : results.filter (fun r => !r.success) with
        | nil => rfl
        | cons a l => rw [hnil] at hF; simp at hF
      simp [failed_conversion_listing, hc, hF, h0]
  · have h := stats_foldl_characterization (fun r : DlOutcome => r.success) dlResults ⟨0, 0, 0⟩
    have hd : calculate_success_stats dlResults =
        { total := dlResults.length
          success := (dlResults.filter (fun r => r.success)).length
          failed := (dlResults.filter (fun r => !r.success)).length } := by
      simpa [calculate_success_stats] using h
    rw [hd, List.length_eq_length_filter_add (fun r : DlOutcome => r.success)]

/-- C8: the output path is the input stem, an underscore, the timestamp and
the target extension; two conversions of the same file to the same format
whose `datetime.now` strings differ get distinct output paths. -/
theorem C8_distinct_output_paths :
    (∀ input_file fmt dir t1 t2, t1 ≠ t2 →
      create_output_path input_file fmt dir t1 ≠ create_output_path input_file fmt dir t2) ∧
    (∀ input_file fmt ts, generate_output_filename input_file fmt ts =
      pathStem input_file ++ "_" ++ ts ++ "." ++ fmt) := by
  constructor
  · intro input_file fmt dir t1 t2 hne heq
    apply hne
    apply String.ext
    have h := congrArg String.data heq
    simp only [create_output_path, generate_output_filename, String.data_append,
      List.append_assoc] at h
    exact List.append_cancel_right
      (List.append_cancel_left (List.append_cancel_left
        (List.append_cancel_left (List.append_cancel_left h))))
  · intro input_file fmt ts; rfl

/-- Witness for C8_distinct_output_paths at two concrete timestamps. -/
theorem C8_distinct_output_paths_witness :
    create_output_path "video.mp4" "mp3" "out" "20250101_000000_000001" ≠
    create_output_path "video.mp4" "mp3" "out" "20250101_000000_000002" :=
  C8_distinct_output_paths.1 "video.mp4" "mp3" "out"
    "20250101_000000_000001" "20250101_000000_000002" (by decide)

/-- C10: a glob pattern falls back to the recursive search prefixed with
"**/" exactly when the direct glob is empty, the resolution fails exactly
when both are empty, and a literal path resolves to itself exactly when it
exists. -/
theorem C10_glob_fallback_characterization (fs : Fs) (pat : String) :
    (py_in "*" pat = true → fs.glob pat = [] → fs.globRec ("**/" ++ pat) = [] →
      resolve_file_paths fs pat = .error ("No file(s) found matching: " ++ pat)) ∧
    (∀ r rs, py_in "*" pat = true → fs.glob pat = [] →
      fs.globRec ("**/" ++ pat) = r :: rs → resolve_file_paths fs pat = .ok (r :: rs)) ∧
    (∀ p ps, py_in "*" pat = true → fs.glob pat = p :: ps →
      resolve_file_paths fs pat = .ok (p :: ps)) ∧
    (py_in "*" pat = false → fs.pathExists pat = true →
      resolve_file_paths fs pat = .ok [pat]) ∧
    (py_in "*" pat = false → fs.pathExists pat = false →
      resolve_file_paths fs pat = .error ("No file(s) found matching: " ++ pat)) := by
  refine ⟨?_, ?_, ?_, ?_, ?_⟩ <;> intros <;> simp_all [resolve_file_paths]

/-- Witness for C10_glob_fallback_characterization on a small concrete
filesystem. -/
theorem C10_glob_fallback_characterization_witness :
    resolve_file_paths
      { glob := fun _ => [], globRec := fun p => if p = "**/*.mp4" then ["sub/a.mp4"] else [],
        pathExists := fun p => p = "b.mp4" } "*.mp4" = .ok ["sub/a.mp4"] ∧
    resolve_file_paths
      { glob := fun _ => [], globRec := fun p => if p = "**/*.mp4" then ["sub/a.mp4"] else [],
        pathExists := fun p => p = "b.mp4" } "b.mp4" = .ok ["b.mp4"] :=
  ⟨(C10_glob_fallback_characterization _ "*.mp4").2.1 "sub/a.mp4" [] (by decide) rfl
      (by decide),
   (C10_glob_fallback_characterization _ "b.mp4").2.2.2.1 (by decide) (by decide)⟩

/-- C7: when input resolution fails — the convert path's file resolution
raises, or the download URL is not a supported platform URL — the entry
point exits with code 1 without running any batch (the batch oracles are
never consulted, so the result is independent of them). -/
theorem C7_resolution_failure_exits_nonzero (fs : Fs)
    (path toFmt output_dir : Option String) (cwd : String)
    (beh beh' : Nat → ItemBehavior) (ts ts' : Nat → String) (max_workers : Nat)
    (url : String) (routed : List DlOutcome) :
    (∀ msg, resolve_file_paths fs (py_str_or path "") = .error msg →
      convert_cli fs path toFmt output_dir cwd beh ts max_workers = .exited 1 ∧
      convert_cli fs path toFmt output_dir cwd beh ts max_workers =
        convert_cli fs path toFmt output_dir cwd beh' ts' max_workers) ∧
    ((validate_youtube_url url).is_valid = false →
      download_cli url routed = .exited 1) := by
  constructor
  · intro msg hres
    have h : ∀ (b : Nat → ItemBehavior) (t : Nat → String),
        convert_cli fs path toFmt output_dir cwd b t max_workers = .exited 1 := by
      intro b t
      unfold convert_cli
      by_cases hv : py_str_or path "" = "" ∨ py_str_or toFmt "" = ""
      · simp [hv]
      · simp [hv, hres]
    exact ⟨h beh ts, by rw [h beh ts, h beh' ts']⟩
  · intro hval
    simp [download_cli, hval]

/-- Witness for C7_resolution_failure_exits_nonzero: an empty filesystem and
a non-YouTube URL both exit with code 1. -/
theorem C7_resolution_failure_exits_nonzero_witness :
    convert_cli { glob := fun _ => [], globRec := fun _ => [], pathExists := fun _ => false }
      (some "a.mp4") (some "mp3") none "/w" (fun _ => .ok) (fun _ => "T") 2 = .exited 1 ∧
    download_cli "https://vimeo.com/123" [] = .exited 1 :=
  ⟨((C7_resolution_failure_exits_nonzero
      { glob := fun _ => [], globRec := fun _ => [], pathExists := fun _ => false }
      (some "a.mp4") (some "mp3") none "/w" (fun _ => .ok) (fun _ => .ok)
      (fun _ => "T") (fun _ => "T") 2 "https://vimeo.com/123" []).1
      ("No file(s) found matching: " ++ "a.mp4") rfl).1,
   (C7_resolution_failure_exits_nonzero
      { glob := fun _ => [], globRec := fun _ => [], pathExists := fun _ => false }
      (some "a.mp4") (some "mp3") none "/w" (fun _ => .ok) (fun _ => .ok)
      (fun _ => "T") (fun _ => "T") 2 "https://vimeo.com/123" []).2 (by decide)⟩

/-- C9: an audio download with no explicit format argument resolves its
target format to None; the conversion path is then never invoked, the
downloaded file is never removed, the surfaced path is the downloaded file,
and the outcome's format field is the downloaded file's own extension. -/
theorem C9_no_format_means_no_conversion (f outp : String) (run : List ConvOutcome)
    (result : RawDlResult) (hs : result.success = true) (hf : result.file_path = some f) :
    get_audio_format_or_default none = .ok none ∧
    (convert_if_needed result.file_path none run).convert_called = false ∧
    (convert_if_needed result.file_path none run).removed_original = false ∧
    (convert_if_needed result.file_path none run).final = some f ∧
    (process_single_download_result result ⟨outp, none⟩ run).format =
      extract_file_extension f ∧
    (process_single_download_result result ⟨outp, none⟩ run).converted = false ∧
    (process_single_download_result result ⟨outp, none⟩ run).file_path = some f := by
  refine ⟨rfl, ?_, ?_, ?_, ?_, ?_, ?_⟩ <;>
    simp [convert_if_needed, hf, process_single_download_result, hs, py_str_or]

/-- Witness for C9_no_format_means_no_conversion at a concrete successful
audio download. -/
theorem C9_no_format_means_no_conversion_witness :
    (process_single_download_result ⟨true, some "downloads/audios/song.m4a", "song", none⟩
      ⟨"downloads/audios", none⟩ []).format = "m4a" ∧
    (process_single_download_result ⟨true, some "downloads/audios/song.m4a", "song", none⟩
      ⟨"downloads/audios", none⟩ []).converted = false :=
  ⟨by
    have h := (C9_no_format_means_no_conversion "downloads/audios/song.m4a"
      "downloads/audios" [] ⟨true, some "downloads/audios/song.m4a", "song", none⟩
      rfl rfl).2.2.2.2.1
    rw [h]; decide,
   (C9_no_format_means_no_conversion "downloads/audios/song.m4a" "downloads/audios" []
      ⟨true, some "downloads/audios/song.m4a", "song", none⟩ rfl rfl).2.2.2.2.2.1⟩

/-- Both branches of `process_conversion_batch` produce the positional
per-item map. -/
theorem process_conversion_batch_eq_map (inputs : List String) (fmt dir : String)
    (beh : Nat → ItemBehavior) (ts : Nat → String) (W : Nat) :
    process_conversion_batch inputs fmt dir beh ts W =
    inputs.enum.map (fun p => run_item fmt dir beh ts p.1 p.2) := by
  unfold process_conversion_batch
  split <;> rfl

/-- The i-th outcome of a conversion batch is item i's outcome. -/
theorem process_conversion_batch_get? (inputs : List String) (fmt dir : String)
    (beh : Nat → ItemBehavior) (ts : Nat → String) (W i : Nat) :
    (process_conversion_batch inputs fmt dir beh ts W).get? i =
    (inputs.get? i).map (fun f => convert_with_feedback f fmt dir (ts i) (beh i)) := by
  rw [process_conversion_batch_eq_map, List.get?_map, List.enum_get?]
  cases inputs.get? i <;> simp [run_item]

/-- C2 counterexample: in a 2-item batch whose second item's encoder call
raises (caught inside `_convert`), the second outcome is failed but carries
no error string — the failure detail was only printed. -/
theorem C2_encoder_failure_has_no_error_string :
    (process_conversion_batch ["a.mp4", "b.mp4"] "mp3" "out"
        (fun i => if i = 1 then .encoderFail "encoder blew up" else .ok)
        (fun _ => "T") 2).get? 1 =
      some { input_file := "b.mp4", output_file := none, success := false,
             format := "mp3", error := none } := by decide

/-- C2 (amended): a batch of N inputs returns exactly N outcome records; the
i-th record is a function of item i alone (so no item's failure affects a
sibling); an exception caught at the orchestrator boundary is recorded as a
failed outcome carrying the exception text; but an encoder failure caught at
the single-item boundary yields a failed outcome whose error field is
empty — its detail is only printed, not recorded. -/
theorem C2_batch_isolation_amended (inputs : List String) (fmt dir : String)
    (beh : Nat → ItemBehavior) (ts : Nat → String) (W : Nat) :
    (process_conversion_batch inputs fmt dir beh ts W).length = inputs.length ∧
    (∀ i, (process_conversion_batch inputs fmt dir beh ts W).get? i =
      (inputs.get? i).map (fun f => convert_with_feedback f fmt dir (ts i) (beh i))) ∧
    (∀ i f msg, inputs.get? i = some f → beh i = .raised msg →
      (process_conversion_batch inputs fmt dir beh ts W).get? i =
        some { input_file := f, output_file := none, success := false,
               format := fmt, error := some msg }) ∧
    (∀ i f msg, inputs.get? i = some f → beh i = .encoderFail msg →
      ∃ r, (process_conversion_batch inputs fmt dir beh ts W).get? i = some r ∧
        r.success = false ∧ r.error = none) := by
  refine ⟨?_, process_conversion_batch_get? inputs fmt dir beh ts W, ?_, ?_⟩
  · rw [process_conversion_batch_eq_map]; simp
  · intro i f msg hi hbeh
    rw [process_conversion_batch_get?, hi]
    simp [convert_with_feedback, hbeh]
  · intro i f msg hi hbeh
    refine ⟨convert_single_file_functional f fmt dir (ts i) false, ?_, ?_, rfl⟩
    · rw [process_conversion_batch_get?, hi]
      simp [convert_with_feedback, hbeh]
    · simp only [convert_single_file_functional]
      cases h : find_ffmpeg_format fmt <;> simp [execute_ffmpeg_conversion, h]

/-- Witness for C2_batch_isolation_amended: a concrete 2-item batch with an
orchestrator-caught exception on the second item. -/
theorem C2_batch_isolation_amended_witness :
    (process_conversion_batch ["a.mp4", "b.mp4"] "mp3" "out"
        (fun i => if i = 1 then .raised "loop crashed" else .ok)
        (fun _ => "T") 2).get? 1 =
      some { input_file := "b.mp4", output_file := none, success := false,
             format := "mp3", error := some "loop crashed" } :=
  (C2_batch_isolation_amended ["a.mp4", "b.mp4"] "mp3" "out"
      (fun i => if i = 1 then .raised "loop crashed" else .ok)
      (fun _ => "T") 2).2.2.1 1 "b.mp4" "loop crashed" (by decide) (by decide)

/-- Every per-item conversion outcome records its own input file. -/
theorem run_item_input_file (fmt dir : String) (beh : Nat → ItemBehavior)
    (ts : Nat → String) (i : Nat) (f : String) :
    (run_item fmt dir beh ts i f).input_file = f := by
  unfold run_item
  cases beh i <;> simp [convert_with_feedback, convert_single_file_functional]

/-- Zipping a file list with its positional batch outcomes and keeping the
files whose outcome succeeded is the same as listing the successful
outcomes' input files. -/
theorem removed_eq_filter_aux (fmt dir : String) (beh : Nat → ItemBehavior)
    (ts : Nat → String) :
    ∀ (l : List String) (n : Nat),
    (l.zip ((List.enumFrom n l).map (fun p => run_item fmt dir beh ts p.1 p.2))).filterMap
      (fun p => if p.2.success then some p.1 else none) =
    (((List.enumFrom n l).map (fun p => run_item fmt dir beh ts p.1 p.2)).filter
      (fun r => r.success)).map (fun r => r.input_file) := by
  intro l
  induction l with
  | nil => intro n; rfl
  | cons x xs ih =>
    intro n
    simp only [List.enumFrom, List.map_cons, List.zip_cons_cons, List.filterMap_cons,
      List.filter_cons]
    cases h : (run_item fmt dir beh ts n x).success with
    | false => simp [h, ih (n + 1)]
    | true => simp [h, ih (n + 1), run_item_input_file]

/-- C4: the pre-conversion file is removed only when the conversion outcome
reports success, and a failed conversion retains and surfaces the original
path with converted=false — on the single-download path
(`convert_if_needed` / `process_single_download_result`) and on the deferred
playlist batch path (`batch_convert_playlist_files` /
`process_playlist_results`). -/
theorem C4_remove_only_after_successful_conversion :
    (∀ (f t : String) (run : List ConvOutcome),
      (convert_if_needed (some f) (some t) run).removed_original = true →
      ∃ r rest, run = r :: rest ∧ r.success = true) ∧
    (∀ (f t : String) (r : ConvOutcome) (rest : List ConvOutcome), f ≠ "" →
      should_convert_format (extract_file_extension f) t = true → r.success = false →
      convert_if_needed (some f) (some t) (r :: rest) =
        { final := some f, removed_original := false, convert_called := true }) ∧
    (∀ (result : RawDlResult) (outp f t : String) (r : ConvOutcome)
        (rest : List ConvOutcome),
      result.success = true → result.file_path = some f → f ≠ "" →
      should_convert_format (extract_file_extension f) t = true → r.success = false →
      (process_single_download_result result ⟨outp, some t⟩ (r :: rest)).file_path =
        some f ∧
      (process_single_download_result result ⟨outp, some t⟩ (r :: rest)).converted =
        false) ∧
    (∀ (files : List String) (t cwd : String) (beh : Nat → ItemBehavior)
        (ts : Nat → String),
      (batch_convert_playlist_files files t cwd beh ts).removed =
      ((batch_convert_playlist_files files t cwd beh ts).conversion_results.filter
        (fun r => r.success)).map (fun r => r.input_file)) ∧
    (∀ (config : DlConfig) (convs : List ConvOutcome) (r : RawDlResult),
      r.success = true →
      (∀ c, lookup_conversion convs (r.file_path.getD "") = some c →
        c.success = false) →
      (process_one_playlist_result config convs r).converted = false ∧
      (process_one_playlist_result config convs r).file_path = r.file_path) ∧
    (∀ (results : List RawDlResult) (config : DlConfig) (cwd : String)
        (beh : Nat → ItemBehavior) (ts : Nat → String),
      (process_playlist_results results config cwd beh ts).2 = [] ∨
      ∃ t, config.output_format = some t ∧
        (process_playlist_results results config cwd beh ts).2 =
        (batch_convert_playlist_files (collect_downloaded_files results) t cwd beh
          ts).removed) := by
  refine ⟨?_, ?_, ?_, ?_, ?_, ?_⟩
  · intro f t run h
    simp only [convert_if_needed] at h
    by_cases hf : f = ""
    · simp [hf] at h
    · simp only [if_neg hf] at h
      by_cases hs : should_convert_format (extract_file_extension f) t = true
      · simp only [hs, if_true] at h
        cases run with
        | nil => simp at h
        | cons r rest =>
          cases hr : r.success with
          | false => simp [hr] at h
          | true => exact ⟨r, rest, rfl, hr⟩
      · simp [hs] at h
  · intro f t r rest hf hs hr
    simp [convert_if_needed, hf, hs, hr]
  · intro result outp f t r rest hres hfp hf hs hr
    have hcif : convert_if_needed (some f) (some t) (r :: rest) =
        { final := some f, removed_original := false, convert_called := true } := by
      simp [convert_if_needed, hf, hs, hr]
    simp [process_single_download_result, hres, hfp, hcif]
  · intro files t cwd beh ts
    unfold batch_convert_playlist_files
    by_cases h1 : files.isEmpty
    · simp [h1]
    · simp only [h1, Bool.false_eq_true, if_false]
      by_cases h2 : (files.filter
          (fun f => should_convert_format (extract_file_extension f) t)).isEmpty
      · simp [h2]
      · simp only [h2, Bool.false_eq_true, if_false]
        unfold convert_files_functional
        rw [process_conversion_batch_eq_map]
        exact removed_eq_filter_aux t (ensure_output_directory none cwd) beh ts _ 0
  · intro config convs r hres hfail
    simp only [process_one_playlist_result, hres, Bool.not_true, Bool.false_eq_true,
      if_false]
    cases hlook : lookup_conversion convs (r.file_path.getD "") with
    | none => simp [hlook]
    | some c =>
      have hc := hfail c hlook
      simp [hlook, hc]
  · intro results config cwd beh ts
    unfold process_playlist_results
    cases hfmt : config.output_format with
    | none => left; rfl
    | some t =>
      by_cases hany : (collect_downloaded_files results).any
          (fun f => should_convert_format (extract_file_extension f) t) = true
      · right; exact ⟨t, rfl, by simp [hany]⟩
      · left; simp [hany]

/-- Witness for C4_remove_only_after_successful_conversion: a concrete
failed conversion of a downloaded webm file keeps the original, and a
concrete playlist batch removes exactly the successfully converted file. -/
theorem C4_remove_only_after_successful_conversion_witness :
    convert_if_needed (some "d/f.webm") (some "mp3")
      [{ input_file := "d/f.webm", output_file := none, success := false,
         format := "mp3", error := none }] =
      { final := some "d/f.webm", removed_original := false, convert_called := true } ∧
    (process_single_download_result ⟨true, some "d/f.webm", "t", none⟩ ⟨"d", some "mp3"⟩
        [{ input_file := "d/f.webm", output_file := none, success := false,
           format := "mp3", error := none }]).converted = false ∧
    (process_one_playlist_result ⟨"d", some "mp3"⟩
        [{ input_file := "d/f.webm", output_file := none, success := false,
           format := "mp3", error := none }]
        ⟨true, some "d/f.webm", "t", none⟩).file_path = some "d/f.webm" :=
  ⟨C4_remove_only_after_successful_conversion.2.1 "d/f.webm" "mp3"
      { input_file := "d/f.webm", output_file := none, success := false,
        format := "mp3", error := none } [] (by decide) (by decide) (by decide),
   (C4_remove_only_after_successful_conversion.2.2.1 ⟨true, some "d/f.webm", "t", none⟩
      "d" "d/f.webm" "mp3"
      { input_file := "d/f.webm", output_file := none, success := false,
        format := "mp3", error := none } [] (by decide) (by decide) (by decide)
      (by decide) (by decide)).2,
   (C4_remove_only_after_successful_conversion.2.2.2.2.1 ⟨"d", some "mp3"⟩
      [{ input_file := "d/f.webm", output_file := none, success := false,
         format := "mp3", error := none }]
      ⟨true, some "d/f.webm", "t", none⟩ (by decide) (by decide)).2⟩

/-- C1: the conversion batch orchestrator is positional — its i-th outcome
is item i's outcome for every completion schedule — but the parallel
playlist downloader is not: at a concrete 2-video playlist whose second
video completes first, the final "sort back to playlist order" step keys its
index map by video URL yet looks it up with the video title, so every lookup
returns the 999 default, the stable sort leaves the collected list
untouched, and the returned results stay in completion order (here
reversed) instead of input order. -/
theorem C1_parallel_results_stay_in_completion_order :
    (∀ (inputs : List String) (fmt dir : String) (beh : Nat → ItemBehavior)
        (ts : Nat → String) (W i : Nat),
      (process_conversion_batch inputs fmt dir beh ts W).get? i =
      (inputs.get? i).map (fun f => convert_with_feedback f fmt dir (ts i) (beh i))) ∧
    (download_playlist_videos_parallel
        [⟨"https://youtube.com/watch?v=aaa", "Video A"⟩,
         ⟨"https://youtube.com/watch?v=bbb", "Video B"⟩]
        (fun i => if i = 0 then ⟨true, some "A.mp4", "Video A", none⟩
          else ⟨true, some "B.mp4", "Video B", none⟩)
        [1, 0]).map (fun r => r.title) = ["Video B", "Video A"] ∧
    (["Video B", "Video A"] ≠ ["Video A", "Video B"]) := by
  refine ⟨?_, by decide, by decide⟩
  intro inputs fmt dir beh ts W i
  rw [process_conversion_batch_eq_map, List.get?_map, List.enum_get?]
  cases inputs.get? i <;> simp [run_item]

end Mmcli
